import Mathlib

/-!
# Verification of the auto_uploader reconciliation core

A shallow embedding of the event-to-remote reconciliation engine of the
`auto_uploader` repository (`src/file_utils.py`, `src/network_utils.py`,
`src/drive_utils.py`, `src/watcher.py`), together with proofs about it.

The persisted JSON mapping document is modelled as an explicit state
(`MapDoc`); every operation is a pure function from that state (plus an
environment describing connectivity and the remote service's responses for
the calls the operation issues) to a result carrying the new state and a
trace of the side effects performed (remote API calls, mapping-file reads
and writes).  Python exceptions that the code catches become ordinary
branches; an exception the code lets escape becomes an explicit `raised`
outcome.
-/

namespace AutoUploader

/-- A remote Google Drive API call, as issued by the code.  `listFolders`
records the exact query string built at `drive_utils.py:91`. -/
inductive RemoteCall where
  | listFolders (query : String)
  | createFolder (name : String)
  | createObject (name : String) (parent : String)
  | updateObject (fileId : String)
  | deleteObject (fileId : String)
  deriving DecidableEq, Repr

/-- An observable side effect of one operation: a remote call, a read of the
mapping document, or a write of the mapping document. -/
inductive Eff where
  | remote (c : RemoteCall)
  | mapRead
  | mapWrite
  deriving DecidableEq, Repr

/-- Extract the remote calls from an effect trace. -/
def remoteCalls (t : List Eff) : List RemoteCall :=
  t.filterMap fun e => match e with
    | .remote c => some c
    | _ => none

/-- State of the persisted mapping document `file_map.json`: absent from
disk, present but failing to parse as JSON, or parsed into a JSON object.
A JSON object is a finite map with unique keys; it is represented as an
association list of (file name, file id) entries. -/
inductive MapDoc where
  | missing
  | corrupt
  | ok (entries : List (String × String))
  deriving DecidableEq, Repr

/-- Python dict update `mapping[k] = v`: replace the entry for `k` if
present, otherwise append it. -/
def setEntry : List (String × String) → String → String → List (String × String)
  | [], k, v => [(k, v)]
  | (k', v') :: rest, k, v =>
      if k' = k then (k, v) :: rest else (k', v') :: setEntry rest k v

/-- Python dict deletion `del mapping[k]` (JSON object keys are unique, so
dropping every entry with key `k` is the dict deletion). -/
def delEntry (m : List (String × String)) (k : String) : List (String × String) :=
  m.filter fun p => p.1 ≠ k

/-- Python truthiness of a `str | None` value: `None` and `""` are falsy. -/
def truthy : Option String → Bool
  | none => false
  | some s => !s.isEmpty

/-- `os.path.basename`: the substring after the last path separator. -/
def basename (p : String) : String :=
  String.mk ((p.data.reverse.takeWhile (fun c => c ≠ '/')).reverse)

/-- Does the first character list start with the second? -/
def listStartsWith : List Char → List Char → Bool
  | _, [] => true
  | [], _ :: _ => false
  | a :: as, b :: bs => a = b && listStartsWith as bs

/-- Does the first character list contain the second as a contiguous run? -/
def listContains : List Char → List Char → Bool
  | [], sub => sub.isEmpty
  | a :: rest, sub => listStartsWith (a :: rest) sub || listContains rest sub

/-- Python's substring test `sub in s`, on the character sequences. -/
def containsSub (s sub : String) : Bool :=
  listContains s.data sub.data

/-- Python's `s.startswith(p)`. -/
def strStartsWith (s p : String) : Bool :=
  listStartsWith s.data p.data

/-- Python's `s.strip()`: drop whitespace from both ends. -/
def strTrim (s : String) : String :=
  String.mk (((s.data.dropWhile Char.isWhitespace).reverse.dropWhile
    Char.isWhitespace).reverse)

/-- `file_utils.get_file_id` (`file_utils.py:47`): missing document warns
and returns `None` without opening it; any read/parse error is caught and
returns `None`; otherwise the dict lookup `mapping.get(file_name)`. -/
def get_file_id (doc : MapDoc) (fileName : String) : Option String × List Eff :=
  match doc with
  | .missing => (none, [])
  | .corrupt => (none, [.mapRead])
  | .ok m => (m.lookup fileName, [.mapRead])

/-- `file_utils.save_file_mapping` (`file_utils.py:8`): load the current
mapping (a corrupt document is logged and treated as empty, a missing one
is not opened), set `file_name -> file_id`, write the whole mapping back. -/
def save_file_mapping (doc : MapDoc) (fileName fileId : String) : MapDoc × List Eff :=
  match doc with
  | .missing => (.ok [(fileName, fileId)], [.mapWrite])
  | .corrupt => (.ok [(fileName, fileId)], [.mapRead, .mapWrite])
  | .ok m => (.ok (setEntry m fileName fileId), [.mapRead, .mapWrite])

/-- `file_utils.remove_file_mapping` (`file_utils.py:78`): missing document
warns and returns; a read error is caught and returns; otherwise delete the
key if present (else warn) and write back. -/
def remove_file_mapping (doc : MapDoc) (fileName : String) : MapDoc × List Eff :=
  match doc with
  | .missing => (doc, [])
  | .corrupt => (doc, [.mapRead])
  | .ok m =>
      if (m.lookup fileName).isSome then
        (.ok (delEntry m fileName), [.mapRead, .mapWrite])
      else
        (doc, [.mapRead])

/-- Outcome of one `upload_file` call.  `raised` marks an exception that
escapes `upload_file` to its caller. -/
inductive UploadOutcome where
  | noConnection
  | updated
  | uploaded
  | failed
  | raised
  deriving DecidableEq, Repr

/-- Environment of one `upload_file` call: the connectivity probe's answer,
whether `MediaFileUpload(file_path, resumable=True)` succeeds in opening
the local file, and the remote service's response to the create call (the
new object id, or an exception) and to the update call. -/
structure UploadEnv where
  connected : Bool
  mediaOk : Bool
  createResult : Except Unit String
  updateResult : Except Unit Unit
  deriving Repr

/-- Result of one `upload_file` call. -/
structure UploadResult where
  outcome : UploadOutcome
  doc : MapDoc
  trace : List Eff
  deriving DecidableEq, Repr

/-- `drive_utils.upload_file` (`drive_utils.py:117`): bail out when the
connectivity probe fails; construct the upload media (an exception here —
e.g. the local file is missing — escapes, since this happens before the
`try`); look up the file's id; inside the `try`, update when a truthy id
exists, else create and save the new mapping; any exception in the `try`
is caught and logged. -/
def upload_file (env : UploadEnv) (folderId : String) (doc : MapDoc)
    (filePath : String) : UploadResult :=
  if !env.connected then
    ⟨.noConnection, doc, []⟩
  else
    let fileName := basename filePath
    if !env.mediaOk then
      ⟨.raised, doc, []⟩
    else
      let r := get_file_id doc fileName
      match r.1 with
      | some fid =>
          if fid.isEmpty then
            match env.createResult with
            | .ok newId =>
                let s := save_file_mapping doc fileName newId
                ⟨.uploaded, s.1,
                  r.2 ++ [.remote (.createObject fileName folderId)] ++ s.2⟩
            | .error _ =>
                ⟨.failed, doc, r.2 ++ [.remote (.createObject fileName folderId)]⟩
          else
            match env.updateResult with
            | .ok _ => ⟨.updated, doc, r.2 ++ [.remote (.updateObject fid)]⟩
            | .error _ => ⟨.failed, doc, r.2 ++ [.remote (.updateObject fid)]⟩
      | none =>
          match env.createResult with
          | .ok newId =>
              let s := save_file_mapping doc fileName newId
              ⟨.uploaded, s.1,
                r.2 ++ [.remote (.createObject fileName folderId)] ++ s.2⟩
          | .error _ =>
              ⟨.failed, doc, r.2 ++ [.remote (.createObject fileName folderId)]⟩

/-- Outcome of one `delete_file_from_drive` call. -/
inductive DeleteOutcome where
  | notTracked
  | deleted
  | httpError
  | unexpectedError
  deriving DecidableEq, Repr

/-- The remote service's response to the delete-object call: success, a
structured `HttpError`, or any other exception. -/
inductive DeleteRes where
  | ok
  | httpErr
  | otherErr
  deriving DecidableEq, Repr

/-- Result of one `delete_file_from_drive` call. -/
structure DeleteResult where
  outcome : DeleteOutcome
  doc : MapDoc
  trace : List Eff
  deriving DecidableEq, Repr

/-- `drive_utils.delete_file_from_drive` (`drive_utils.py:163`): look up the
file id; a falsy id warns and returns; otherwise issue the remote delete and,
on success, remove the mapping entry; an `HttpError` and any other exception
are each caught and logged, leaving the mapping untouched. -/
def delete_file_from_drive (res : DeleteRes) (doc : MapDoc)
    (fileName : String) : DeleteResult :=
  let r := get_file_id doc fileName
  match r.1 with
  | none => ⟨.notTracked, doc, r.2⟩
  | some fid =>
      if fid.isEmpty then
        ⟨.notTracked, doc, r.2⟩
      else
        match res with
        | .ok =>
            let rm := remove_file_mapping doc fileName
            ⟨.deleted, rm.1, r.2 ++ [.remote (.deleteObject fid)] ++ rm.2⟩
        | .httpErr => ⟨.httpError, doc, r.2 ++ [.remote (.deleteObject fid)]⟩
        | .otherErr => ⟨.unexpectedError, doc, r.2 ++ [.remote (.deleteObject fid)]⟩

/-- One entry of the remote service's response to a folder list query. -/
structure DriveFile where
  id : String
  name : String
  deriving DecidableEq, Repr

/-- Environment of one `get_or_create_drive_folder` call: the remote
service's response to the list query (the matching files, or an exception)
and to the folder-create call (the new folder id, or an exception). -/
structure FolderEnv where
  listResult : Except Unit (List DriveFile)
  createResult : Except Unit String

/-- The query string built at `drive_utils.py:91`. -/
def folderQuery (folderName : String) : String :=
  "name='" ++ folderName ++
    "' and mimeType='application/vnd.google-apps.folder' and trashed=false"

/-- `drive_utils.get_or_create_drive_folder` (`drive_utils.py:73`): list
non-trashed folders exactly matching the name (a failure is caught and
returns `None`); if any match, return the first match's id; otherwise create
the folder and return its id (a failure is caught and returns `None`). -/
def get_or_create_drive_folder (env : FolderEnv) (folderName : String) :
    Option String × List RemoteCall :=
  match env.listResult with
  | .error _ => (none, [.listFolders (folderQuery folderName)])
  | .ok files =>
      match files with
      | f :: _ => (some f.id, [.listFolders (folderQuery folderName)])
      | [] =>
          match env.createResult with
          | .ok fid =>
              (some fid,
               [.listFolders (folderQuery folderName), .createFolder folderName])
          | .error _ =>
              (none,
               [.listFolders (folderQuery folderName), .createFolder folderName])

/-- State of the persisted container-identity document `folder_id.txt`:
absent from disk, present but unreadable, or readable with some content. -/
inductive IdDoc where
  | missing
  | unreadable
  | content (s : String)
  deriving DecidableEq, Repr

/-- `Watcher.get_or_create_folder_id` (`watcher.py:54`): if the folder-id
file exists and reads to a non-empty string after stripping whitespace,
return that value with no remote call (a read error is caught and falls
through); otherwise resolve the folder remotely via
`get_or_create_drive_folder` on the watch folder's base name and, when the
result is truthy, persist it before returning it. -/
def get_or_create_folder_id (env : FolderEnv) (idDoc : IdDoc)
    (watchFolder : String) : Option String × IdDoc × List RemoteCall :=
  let resolve : Option String × IdDoc × List RemoteCall :=
    let r := get_or_create_drive_folder env (basename watchFolder)
    match r.1 with
    | some fid => if fid.isEmpty then (r.1, idDoc, r.2) else (r.1, .content fid, r.2)
    | none => (none, idDoc, r.2)
  match idDoc with
  | .missing => resolve
  | .unreadable => resolve
  | .content s =>
      let fid := strTrim s
      if fid.isEmpty then resolve else (some fid, idDoc, [])

/-- The container-identity document is "absent or empty": missing from
disk, unreadable, or holding content that trims to the empty string. -/
def cacheEmpty : IdDoc → Bool
  | .missing => true
  | .unreadable => true
  | .content s => (strTrim s).isEmpty

/-- A file-system event as the watcher handlers see it: the directory flag,
the primary path, and (for moves) the destination path — `getattr(event,
"dest_path", "")` defaults to the empty string. -/
structure Event where
  isDirectory : Bool
  srcPath : String
  destPath : String
  deriving DecidableEq, Repr

/-- The four watchdog event kinds dispatched to the `Watcher` handlers. -/
inductive EventKind where
  | created
  | modified
  | deleted
  | moved
  deriving DecidableEq, Repr

/-- Environment for one dispatched event: the upload environment and the
remote service's response to a delete call. -/
structure WatchEnv where
  upload : UploadEnv
  deleteRes : DeleteRes

/-- The trash test at `watcher.py:174`: the destination contains
`/.local/share/Trash` or `/Trash`. -/
def isTrashDest (dest : String) : Bool :=
  containsSub dest "/.local/share/Trash" || containsSub dest "/Trash"

/-- The `Watcher` event handlers (`watcher.py:92-175`) as one dispatcher:
`created`/`modified` skip directories and hidden base names, then call
`upload_file`; `deleted` skips directories and hidden base names, then calls
`delete_file_from_drive` on the base name; `moved` skips directories and
calls `delete_file_from_drive` on the source base name when the destination
is a trash path, else does nothing.  Returns the new mapping document and
the effect trace. -/
def dispatch (env : WatchEnv) (folderId : String) (kind : EventKind)
    (ev : Event) (doc : MapDoc) : MapDoc × List Eff :=
  match kind with
  | .created =>
      if ev.isDirectory then (doc, [])
      else if strStartsWith (basename ev.srcPath) "." then (doc, [])
      else
        let r := upload_file env.upload folderId doc ev.srcPath
        (r.doc, r.trace)
  | .modified =>
      if ev.isDirectory then (doc, [])
      else if strStartsWith (basename ev.srcPath) "." then (doc, [])
      else
        let r := upload_file env.upload folderId doc ev.srcPath
        (r.doc, r.trace)
  | .deleted =>
      if ev.isDirectory then (doc, [])
      else if strStartsWith (basename ev.srcPath) "." then (doc, [])
      else
        let r := delete_file_from_drive env.deleteRes doc (basename ev.srcPath)
        (r.doc, r.trace)
  | .moved =>
      if ev.isDirectory then (doc, [])
      else if isTrashDest ev.destPath then
        let r := delete_file_from_drive env.deleteRes doc (basename ev.srcPath)
        (r.doc, r.trace)
      else (doc, [])

/-! ## Helper lemmas -/

theorem lookup_setEntry_self : ∀ (m : List (String × String)) (k v : String),
    (setEntry m k v).lookup k = some v
  | [], k, v => by simp [setEntry, List.lookup]
  | (k', v') :: rest, k, v => by
      by_cases h : k' = k
      · simp [setEntry, h, List.lookup]
      · have hkk : (k == k') = false := beq_eq_false_iff_ne.mpr (Ne.symm h)
        simp [setEntry, h, List.lookup, hkk, lookup_setEntry_self rest k v]

theorem lookup_delEntry_self (m : List (String × String)) (k : String) :
    (delEntry m k).lookup k = none := by
  induction m with
  | nil => rfl
  | cons p rest ih =>
      by_cases h : p.1 = k
      · simpa [delEntry, List.filter_cons, h] using ih
      · have hkk : (k == p.1) = false := beq_eq_false_iff_ne.mpr (Ne.symm h)
        simpa [delEntry, List.filter_cons, h, List.lookup, hkk] using ih

/-! ## Claims -/

/-- C3: when the connectivity probe reports unreachable, `upload_file`
returns the "no connection" outcome with zero remote calls and no mapping
read or write, for every folder id, mapping state and local path. -/
theorem upload_no_connection_short_circuit (env : UploadEnv) (folderId : String)
    (doc : MapDoc) (filePath : String) (h : env.connected = false) :
    upload_file env folderId doc filePath = ⟨.noConnection, doc, []⟩ := by
  simp [upload_file, h]

/-- Witness for C3 at a concrete offline environment. -/
theorem upload_no_connection_short_circuit_witness :
    upload_file ⟨false, true, .ok "id1", .ok ()⟩ "folder1"
        (.ok [("a.txt", "id0")]) "/w/a.txt"
      = ⟨.noConnection, .ok [("a.txt", "id0")], []⟩ :=
  upload_no_connection_short_circuit ⟨false, true, .ok "id1", .ok ()⟩ "folder1"
    (.ok [("a.txt", "id0")]) "/w/a.txt" rfl

/-- C7: on a mapping document that fails to parse, `get_file_id` returns
`none` rather than an error, and `save_file_mapping` treats the document as
empty and rewrites it to contain exactly the single entry `{n: id}`. -/
theorem corrupt_mapping_self_heal (n fid : String) :
    (get_file_id .corrupt n).1 = none
    ∧ (save_file_mapping .corrupt n fid).1 = .ok [(n, fid)] :=
  ⟨rfl, rfl⟩

/-- C1: starting from a mapping with no entry for the file's base name, a
first `upload_file` issues exactly one create call and records
`name -> newId`; a second `upload_file` for the same path (whatever its
content, i.e. for every update/create response in its environment) issues
exactly one update call against that same id and leaves the mapping
document unchanged — never a second create, never a new id. -/
theorem upload_create_then_update (env1 env2 : UploadEnv)
    (folderId1 folderId2 : String) (doc : MapDoc) (filePath newId : String)
    (hc1 : env1.connected = true) (hm1 : env1.mediaOk = true)
    (hcr : env1.createResult = .ok newId) (hid : newId.isEmpty = false)
    (hnone : (get_file_id doc (basename filePath)).1 = none)
    (hc2 : env2.connected = true) (hm2 : env2.mediaOk = true) :
    remoteCalls (upload_file env1 folderId1 doc filePath).trace
        = [.createObject (basename filePath) folderId1]
    ∧ (get_file_id (upload_file env1 folderId1 doc filePath).doc
          (basename filePath)).1 = some newId
    ∧ remoteCalls (upload_file env2 folderId2
          (upload_file env1 folderId1 doc filePath).doc filePath).trace
        = [.updateObject newId]
    ∧ (upload_file env2 folderId2
          (upload_file env1 folderId1 doc filePath).doc filePath).doc
        = (upload_file env1 folderId1 doc filePath).doc := by
  cases doc with
  | missing =>
      cases hu : env2.updateResult <;>
        simp [upload_file, hc1, hm1, hcr, hc2, hm2, hu, get_file_id,
              save_file_mapping, remoteCalls, hid, List.lookup]
  | corrupt =>
      cases hu : env2.updateResult <;>
        simp [upload_file, hc1, hm1, hcr, hc2, hm2, hu, get_file_id,
              save_file_mapping, remoteCalls, hid, List.lookup]
  | ok m =>
      have hl : m.lookup (basename filePath) = none := by
        simpa [get_file_id] using hnone
      cases hu : env2.updateResult <;>
        simp [upload_file, hc1, hm1, hcr, hc2, hm2, hu, get_file_id,
              save_file_mapping, remoteCalls, hid, hl, lookup_setEntry_self]

/-- Witness for C1 at a concrete environment: a missing mapping document,
then a create answering `newId1`, then a second call. -/
theorem upload_create_then_update_witness :
    remoteCalls (upload_file ⟨true, true, .ok "newId1", .ok ()⟩ "folder1"
        .missing "/w/report.txt").trace
      = [.createObject "report.txt" "folder1"]
    ∧ (get_file_id (upload_file ⟨true, true, .ok "newId1", .ok ()⟩ "folder1"
          .missing "/w/report.txt").doc "report.txt").1 = some "newId1"
    ∧ remoteCalls (upload_file ⟨true, true, .error (), .ok ()⟩ "folder1"
          (upload_file ⟨true, true, .ok "newId1", .ok ()⟩ "folder1"
            .missing "/w/report.txt").doc "/w/report.txt").trace
        = [.updateObject "newId1"]
    ∧ (upload_file ⟨true, true, .error (), .ok ()⟩ "folder1"
          (upload_file ⟨true, true, .ok "newId1", .ok ()⟩ "folder1"
            .missing "/w/report.txt").doc "/w/report.txt").doc
        = (upload_file ⟨true, true, .ok "newId1", .ok ()⟩ "folder1"
            .missing "/w/report.txt").doc := by
  have h := upload_create_then_update ⟨true, true, .ok "newId1", .ok ()⟩
    ⟨true, true, .error (), .ok ()⟩ "folder1" "folder1" .missing
    "/w/report.txt" "newId1" rfl rfl rfl rfl (by decide) rfl rfl
  rw [(by decide : basename "/w/report.txt" = "report.txt")] at h
  exact h

/-- C2, counterexample: a `moved` event whose source base name starts with
a dot is NOT ignored — `Watcher.on_moved` has no hidden-name filter.  With
`.hidden` mapped to `id123` and a trash destination, the dispatcher issues
a remote delete call and empties the mapping, contradicting the claim that
every hidden-subject event makes no remote call and leaves the mapping
unchanged. -/
theorem moved_hidden_event_not_ignored :
    remoteCalls (dispatch ⟨⟨true, true, .ok "x", .ok ()⟩, .ok⟩ "folder1" .moved
        ⟨false, "/w/.hidden", "/home/u/.local/share/Trash/.hidden"⟩
        (.ok [(".hidden", "id123")])).2
      = [.deleteObject "id123"]
    ∧ (dispatch ⟨⟨true, true, .ok "x", .ok ()⟩, .ok⟩ "folder1" .moved
        ⟨false, "/w/.hidden", "/home/u/.local/share/Trash/.hidden"⟩
        (.ok [(".hidden", "id123")])).1
      ≠ .ok [(".hidden", "id123")] := by
  decide

/-- C2, amended: for `created`, `modified` and `deleted` events whose
subject's base name starts with a leading dot, the dispatcher does nothing:
no effect at all and an unchanged mapping.  (`moved` events apply no
hidden-name filter.) -/
theorem hidden_event_ignored_except_moved (env : WatchEnv) (folderId : String)
    (kind : EventKind) (ev : Event) (doc : MapDoc)
    (hk : kind ≠ .moved)
    (hh : strStartsWith (basename ev.srcPath) "." = true) :
    dispatch env folderId kind ev doc = (doc, []) := by
  cases kind with
  | moved => exact absurd rfl hk
  | created => by_cases hd : ev.isDirectory <;> simp [dispatch, hd, hh]
  | modified => by_cases hd : ev.isDirectory <;> simp [dispatch, hd, hh]
  | deleted => by_cases hd : ev.isDirectory <;> simp [dispatch, hd, hh]

/-- Witness for the amended C2: a concrete hidden-file `modified` event. -/
theorem hidden_event_ignored_except_moved_witness :
    dispatch ⟨⟨true, true, .ok "x", .ok ()⟩, .ok⟩ "folder1" .modified
        ⟨false, "/w/.hidden.txt", ""⟩ (.ok [("a.txt", "id0")])
      = (.ok [("a.txt", "id0")], []) :=
  hidden_event_ignored_except_moved ⟨⟨true, true, .ok "x", .ok ()⟩, .ok⟩
    "folder1" .modified ⟨false, "/w/.hidden.txt", ""⟩ (.ok [("a.txt", "id0")])
    (by decide) (by decide)

/-- C4, counterexample: when constructing the upload media fails (the local
file at `file_path` is missing or unreadable), the exception escapes
`upload_file` — `MediaFileUpload(file_path, resumable=True)` at
`drive_utils.py:144` runs before the `try` block.  So `upload_file` is not
exception-free for every input. -/
theorem upload_missing_local_file_raises :
    (upload_file ⟨true, false, .ok "id9", .ok ()⟩ "folder9" .missing
      "/w/gone.txt").outcome = .raised := by
  decide

/-- C4, amended: provided the upload media is constructed successfully,
`upload_file` never lets an exception escape: every remote-call exception
(update or create, for every remote response) is caught inside it. -/
theorem upload_no_raise_when_media_ok (env : UploadEnv) (folderId : String)
    (doc : MapDoc) (filePath : String) (hm : env.mediaOk = true) :
    (upload_file env folderId doc filePath).outcome ≠ .raised := by
  unfold upload_file
  cases hc : env.connected with
  | false => simp
  | true =>
      simp only [hm, Bool.true_eq_false, Bool.not_true]
      cases hg : (get_file_id doc (basename filePath)).1 with
      | none =>
          cases hcr : env.createResult <;> simp [hcr]
      | some fid =>
          by_cases he : fid.isEmpty
          · cases hcr : env.createResult <;> simp [he, hcr]
          · cases hu : env.updateResult <;> simp [he, hu]

/-- Witness for the amended C4 at a concrete environment whose remote
create call fails. -/
theorem upload_no_raise_when_media_ok_witness :
    (upload_file ⟨true, true, .error (), .ok ()⟩ "folder9" .missing
      "/w/report.txt").outcome ≠ .raised :=
  upload_no_raise_when_media_ok ⟨true, true, .error (), .ok ()⟩ "folder9"
    .missing "/w/report.txt" rfl

/-- C5: when the mapping has a (truthy) entry `name -> fid` and the remote
delete call fails — with a structured `HttpError` or any other exception —
the mapping document is left untouched, the entry is still present, exactly
the one delete call was issued, and the two failure classes are reported
distinctly. -/
theorem delete_failure_keeps_mapping (res : DeleteRes) (doc : MapDoc)
    (fileName fid : String)
    (hentry : (get_file_id doc fileName).1 = some fid)
    (hne : fid.isEmpty = false)
    (hfail : res ≠ .ok) :
    (delete_file_from_drive res doc fileName).doc = doc
    ∧ (get_file_id (delete_file_from_drive res doc fileName).doc fileName).1
        = some fid
    ∧ remoteCalls (delete_file_from_drive res doc fileName).trace
        = [.deleteObject fid]
    ∧ (res = .httpErr →
        (delete_file_from_drive res doc fileName).outcome = .httpError)
    ∧ (res = .otherErr →
        (delete_file_from_drive res doc fileName).outcome = .unexpectedError) := by
  cases doc with
  | missing => simp [get_file_id] at hentry
  | corrupt => simp [get_file_id] at hentry
  | ok m =>
      have hl : m.lookup fileName = some fid := by
        simpa [get_file_id] using hentry
      cases res with
      | ok => exact absurd rfl hfail
      | httpErr =>
          simp [delete_file_from_drive, get_file_id, hl, hne, remoteCalls]
      | otherErr =>
          simp [delete_file_from_drive, get_file_id, hl, hne, remoteCalls]

/-- Witness for C5: a concrete mapping with one entry and a failing remote
delete. -/
theorem delete_failure_keeps_mapping_witness :
    (delete_file_from_drive .httpErr (.ok [("a.txt", "id7")]) "a.txt").doc
      = .ok [("a.txt", "id7")] :=
  (delete_failure_keeps_mapping .httpErr (.ok [("a.txt", "id7")]) "a.txt"
    "id7" (by decide) (by decide) (by decide)).1

/-- C6: (1) deleting a name with no mapping entry reports "not tracked",
issues zero remote calls and leaves the mapping document unchanged, for
every remote behaviour; (2) after a successful delete of a tracked name, a
second delete of the same name is exactly such a no-op. -/
theorem delete_untracked_noop :
    (∀ (res : DeleteRes) (doc : MapDoc) (name : String),
        (get_file_id doc name).1 = none →
          (delete_file_from_drive res doc name).outcome = .notTracked
          ∧ (delete_file_from_drive res doc name).doc = doc
          ∧ remoteCalls (delete_file_from_drive res doc name).trace = [])
    ∧ (∀ (res : DeleteRes) (m : List (String × String)) (name fid : String),
        m.lookup name = some fid → fid.isEmpty = false →
          (delete_file_from_drive .ok (.ok m) name).outcome = .deleted
          ∧ (delete_file_from_drive res
              (delete_file_from_drive .ok (.ok m) name).doc name).outcome
            = .notTracked
          ∧ remoteCalls (delete_file_from_drive res
              (delete_file_from_drive .ok (.ok m) name).doc name).trace = []) := by
  constructor
  · intro res doc name hnone
    cases doc with
    | missing => simp [delete_file_from_drive, get_file_id, remoteCalls]
    | corrupt => simp [delete_file_from_drive, get_file_id, remoteCalls]
    | ok m =>
        have hl : m.lookup name = none := by simpa [get_file_id] using hnone
        simp [delete_file_from_drive, get_file_id, hl, remoteCalls]
  · intro res m name fid hl hne
    have hfst : delete_file_from_drive .ok (.ok m) name
        = ⟨.deleted, .ok (delEntry m name),
           [.mapRead, .remote (.deleteObject fid), .mapRead, .mapWrite]⟩ := by
      simp [delete_file_from_drive, get_file_id, hl, hne, remove_file_mapping]
    refine ⟨by rw [hfst], ?_, ?_⟩ <;>
      rw [hfst] <;>
      simp [delete_file_from_drive, get_file_id, lookup_delEntry_self, remoteCalls]

/-- Witness for C6: the untracked case on a one-entry mapping for another
name, and the delete-then-delete case on a concrete tracked name. -/
theorem delete_untracked_noop_witness :
    (delete_file_from_drive .httpErr (.ok [("b.txt", "id7")]) "a.txt").outcome
      = .notTracked
    ∧ (delete_file_from_drive .otherErr
        (delete_file_from_drive .ok (.ok [("a.txt", "id7")]) "a.txt").doc
          "a.txt").outcome = .notTracked := by
  constructor
  · exact (delete_untracked_noop.1 .httpErr (.ok [("b.txt", "id7")]) "a.txt"
      (by decide)).1
  · exact (delete_untracked_noop.2 .otherErr [("a.txt", "id7")] "a.txt" "id7"
      (by decide) (by decide)).2.1

/-- C8: `get_or_create_drive_folder` always issues the list query for
non-trashed folders exactly matching the name first; a non-empty result
returns the first match's id with no create call; an empty result issues
one create call and returns the new id; a failure of either call yields
`none` (and the function is total, it never raises). -/
theorem folder_resolver_spec (env : FolderEnv) (name : String) :
    ((get_or_create_drive_folder env name).2.head?
        = some (.listFolders (folderQuery name)))
    ∧ (∀ f rest, env.listResult = .ok (f :: rest) →
        get_or_create_drive_folder env name
          = (some f.id, [.listFolders (folderQuery name)]))
    ∧ (∀ fid, env.listResult = .ok [] → env.createResult = .ok fid →
        get_or_create_drive_folder env name
          = (some fid, [.listFolders (folderQuery name), .createFolder name]))
    ∧ (env.listResult = .error () →
        get_or_create_drive_folder env name
          = (none, [.listFolders (folderQuery name)]))
    ∧ (env.listResult = .ok [] → env.createResult = .error () →
        get_or_create_drive_folder env name
          = (none, [.listFolders (folderQuery name), .createFolder name])) := by
  obtain ⟨ls, cr⟩ := env
  refine ⟨?_, ?_, ?_, ?_, ?_⟩
  · cases ls with
    | error e => simp [get_or_create_drive_folder]
    | ok files => cases files <;> cases cr <;> simp [get_or_create_drive_folder]
  · intro f rest h
    cases h
    simp [get_or_create_drive_folder]
  · intro fid h1 h2
    cases h1
    cases h2
    simp [get_or_create_drive_folder]
  · intro h
    cases h
    simp [get_or_create_drive_folder]
  · intro h1 h2
    cases h1
    cases h2
    simp [get_or_create_drive_folder]

/-- Witness for C8 at a concrete environment: an empty list result and a
successful create. -/
theorem folder_resolver_spec_witness :
    get_or_create_drive_folder ⟨.ok [], .ok "newFolder1"⟩ "watched"
      = (some "newFolder1",
         [.listFolders (folderQuery "watched"), .createFolder "watched"]) :=
  (folder_resolver_spec ⟨.ok [], .ok "newFolder1"⟩ "watched").2.2.1
    "newFolder1" rfl rfl

/-- C9: (1) when the container-identity document holds a value that is
non-empty after trimming, the cached resolver returns that trimmed value
with zero remote calls; (2) when the document is absent, unreadable or
trims to empty, the resolver performs exactly the one remote resolve round
trip of `get_or_create_drive_folder` and persists the resolved id before
returning it, so a second call starting from the persisted document makes
zero remote calls. -/
theorem cached_folder_resolver :
    (∀ (env : FolderEnv) (s wf : String),
        (strTrim s).isEmpty = false →
          get_or_create_folder_id env (.content s) wf
            = (some (strTrim s), .content s, []))
    ∧ (∀ (env env2 : FolderEnv) (idDoc : IdDoc) (wf fid : String),
        cacheEmpty idDoc = true →
        (get_or_create_drive_folder env (basename wf)).1 = some fid →
        fid.isEmpty = false →
          get_or_create_folder_id env idDoc wf
            = (some fid, .content fid,
               (get_or_create_drive_folder env (basename wf)).2)
          ∧ (strTrim fid = fid →
              get_or_create_folder_id env2 (.content fid) wf
                = (some fid, .content fid, []))) := by
  constructor
  · intro env s wf h
    simp [get_or_create_folder_id, h]
  · intro env env2 idDoc wf fid hempty hres hne
    constructor
    · cases idDoc with
      | missing => simp [get_or_create_folder_id, hres, hne]
      | unreadable => simp [get_or_create_folder_id, hres, hne]
      | content s =>
          have hs : (strTrim s).isEmpty = true := by
            simpa [cacheEmpty] using hempty
          simp [get_or_create_folder_id, hs, hres, hne]
    · intro htrim
      simp [get_or_create_folder_id, htrim, hne]

/-- Witness for C9: a concrete empty cache, a resolve answering
`folder123`, then a second call on the persisted document. -/
theorem cached_folder_resolver_witness :
    get_or_create_folder_id ⟨.ok [], .ok "folder123"⟩ .missing "/home/u/watched"
      = (some "folder123", .content "folder123",
         [.listFolders (folderQuery "watched"), .createFolder "watched"])
    ∧ get_or_create_folder_id ⟨.error (), .error ()⟩ (.content "folder123")
        "/home/u/watched" = (some "folder123", .content "folder123", []) := by
  have h := (cached_folder_resolver.2 ⟨.ok [], .ok "folder123"⟩
    ⟨.error (), .error ()⟩ .missing "/home/u/watched" "folder123"
    rfl (by decide) (by decide))
  refine ⟨?_, h.2 (by decide)⟩
  have h1 := h.1
  rw [(by decide : basename "/home/u/watched" = "watched")] at h1
  simpa using h1

/-- C10: for a `moved` event on a non-directory subject, a destination
containing a trash marker makes the dispatcher perform exactly the delete
of the source path's base name (its mapping change and its effect trace,
nothing else); any other destination produces no effect at all and an
unchanged mapping. -/
theorem moved_event_policy (env : WatchEnv) (folderId : String) (ev : Event)
    (doc : MapDoc) (hd : ev.isDirectory = false) :
    (isTrashDest ev.destPath = true →
        dispatch env folderId .moved ev doc
          = ((delete_file_from_drive env.deleteRes doc (basename ev.srcPath)).doc,
             (delete_file_from_drive env.deleteRes doc (basename ev.srcPath)).trace))
    ∧ (isTrashDest ev.destPath = false →
        dispatch env folderId .moved ev doc = (doc, [])) := by
  constructor <;> intro h <;> simp [dispatch, hd, h]

/-- Witness for C10: a concrete move into the trash, and a concrete move
elsewhere on disk. -/
theorem moved_event_policy_witness :
    dispatch ⟨⟨true, true, .ok "x", .ok ()⟩, .ok⟩ "folder1" .moved
        ⟨false, "/w/report.txt", "/home/u/.local/share/Trash/report.txt"⟩
        (.ok [("report.txt", "id123")])
      = ((delete_file_from_drive .ok (.ok [("report.txt", "id123")])
            (basename "/w/report.txt")).doc,
         (delete_file_from_drive .ok (.ok [("report.txt", "id123")])
            (basename "/w/report.txt")).trace)
    ∧ dispatch ⟨⟨true, true, .ok "x", .ok ()⟩, .ok⟩ "folder1" .moved
        ⟨false, "/w/report.txt", "/w/sub/report.txt"⟩
        (.ok [("report.txt", "id123")])
      = (.ok [("report.txt", "id123")], []) :=
  ⟨(moved_event_policy ⟨⟨true, true, .ok "x", .ok ()⟩, .ok⟩ "folder1"
      ⟨false, "/w/report.txt", "/home/u/.local/share/Trash/report.txt"⟩
      (.ok [("report.txt", "id123")]) rfl).1 (by decide),
   (moved_event_policy ⟨⟨true, true, .ok "x", .ok ()⟩, .ok⟩ "folder1"
      ⟨false, "/w/report.txt", "/w/sub/report.txt"⟩
      (.ok [("report.txt", "id123")]) rfl).2 (by decide)⟩

end AutoUploader
